import Mathlib

/-!
# Vision client: capture / dispatch / reconciliation engine

A shallow embedding of `src/src/App.js` (a React component) and the properties of
its frame dispatch loop, result handlers, on-demand recognition requests and
speech bridge.

Conventions of the embedding:

* `Date.now()` is an `Int` (milliseconds); every iteration receives its reading as an
  argument.
* A closure created by one run of a React effect is a record of the values it captured
  plus its own mutable locals.
* Side-effecting calls (`drawImage`, `socket.emit`, `requestAnimationFrame`, ...) are
  returned as a list of `Action`s in program order.
-/

namespace Vision

/-! ## Frame dispatch loop (`App.js`, lines 190-222) -/

/-- The socket.io handle stored in the module variable `socket`; only its `connected`
flag is read by the dispatch loop. -/
structure Socket where
  connected : Bool
deriving DecidableEq, Repr

/-- What `captureFrame` reads from outside its closure at the moment it runs:
`videoRef.current` and `canvasRef.current` (non-null or not) and the module variable
`socket` (`none` while `StartSocket` has never run). -/
structure Env where
  video : Bool
  canvas : Bool
  socket : Option Socket
deriving DecidableEq, Repr

/-- The value of `socket?.connected` as a condition: `undefined` (falsy) when there is no
socket, the flag otherwise. -/
def socketConnected : Option Socket → Bool
  | none => false
  | some s => s.connected

/-- Side-effecting calls made by one iteration, in program order. -/
inductive Action
  | drawImage
  | toDataURL
  | emit (event : String)
  | requestAnimationFrame
deriving DecidableEq, Repr

/-- One run of the dispatch effect: the toggle values its `captureFrame` closure captured
and the effect-local variable `lastImageSent`. -/
structure Loop where
  isCaptionEnabled : Bool
  isOcrEnabled : Bool
  lastImageSent : Int
deriving DecidableEq, Repr

/-- One call of `captureFrame` with `Date.now() = now` (lines 193-215). -/
def captureFrame (env : Env) (now : Int) (l : Loop) : Loop × List Action :=
  if env.video && env.canvas && socketConnected env.socket then
    if (l.isCaptionEnabled || l.isOcrEnabled) && decide (now - l.lastImageSent ≥ 5000) then
      ({ l with lastImageSent := now },
        [Action.drawImage, Action.toDataURL]
          ++ (if l.isCaptionEnabled then [Action.emit "request_caption"] else [])
          ++ [Action.requestAnimationFrame])
    else
      (l, [Action.drawImage, Action.requestAnimationFrame])
  else
    (l, [Action.requestAnimationFrame])

/-- The cleanup function returned by the effect (lines 219-221): it resets the counter of
its own closure and cancels nothing. -/
def cleanup (l : Loop) : Loop :=
  { l with lastImageSent := 0 }

/-- The body of the effect (lines 191-217): a fresh closure over the current toggles. -/
def startLoop (isCaptionEnabled isOcrEnabled : Bool) : Loop :=
  { isCaptionEnabled := isCaptionEnabled, isOcrEnabled := isOcrEnabled, lastImageSent := 0 }

/-- The part of the component the dispatch effect depends on: the two toggle states and
every `captureFrame` chain started so far, oldest first. The last one belongs to the
latest run of the effect; earlier ones went through `cleanup` but keep rescheduling
themselves, since nothing calls `cancelAnimationFrame`. -/
structure Component where
  isCaptionEnabled : Bool
  isOcrEnabled : Bool
  loops : List Loop
deriving DecidableEq, Repr

/-- State after the first render: `useState(true)` for captioning, `useState(false)` for
OCR, and the effect has run once. -/
def mount : Component :=
  { isCaptionEnabled := true, isOcrEnabled := false, loops := [startLoop true false] }

/-- A `request_caption`-style emit on the socket, tagged with the effect run whose loop
made it and the clock reading of that iteration. -/
structure Emit where
  loop : Nat
  event : String
  now : Int
deriving DecidableEq, Repr

/-- Apply `cleanup` to the closure of the latest effect run. -/
def cleanupLatest (loops : List Loop) : List Loop :=
  match loops[loops.length - 1]? with
  | none => loops
  | some l => loops.set (loops.length - 1) (cleanup l)

/-- A re-render with the given toggle values. The dependency array is
`[isCaptionEnabled, isOcrEnabled]`: when neither changed nothing happens, otherwise the
previous cleanup runs and the effect body runs again. -/
def rerender (c : Component) (caption ocr : Bool) : Component :=
  if caption = c.isCaptionEnabled ∧ ocr = c.isOcrEnabled then c
  else
    { isCaptionEnabled := caption, isOcrEnabled := ocr,
      loops := cleanupLatest c.loops ++ [startLoop caption ocr] }

/-- Things that happen to the component. -/
inductive Event
  | handleCaptionToggle (checked : Bool)
  | handleOcrToggle (checked : Bool)
  | frame (i : Nat) (env : Env) (now : Int)
deriving DecidableEq, Repr

/-- The emits among the actions of one iteration. -/
def emitsOf (i : Nat) (now : Int) : List Action → List Emit
  | [] => []
  | Action.emit ev :: as => { loop := i, event := ev, now := now } :: emitsOf i now as
  | _ :: as => emitsOf i now as

/-- One event: a toggle handler followed by the re-render it causes, or the animation
frame callback of the loop started by effect run `i`. -/
def step (c : Component) : Event → Component × List Emit
  | Event.handleCaptionToggle checked => (rerender c checked c.isOcrEnabled, [])
  | Event.handleOcrToggle checked => (rerender c c.isCaptionEnabled checked, [])
  | Event.frame i env now =>
    match c.loops[i]? with
    | none => (c, [])
    | some l =>
      ({ c with loops := c.loops.set i (captureFrame env now l).1 },
        emitsOf i now (captureFrame env now l).2)

/-- A sequence of events; the emits are collected in the order they were made. -/
def run (c : Component) : List Event → Component × List Emit
  | [] => (c, [])
  | e :: es => ((run (step c e).1 es).1, (step c e).2 ++ (run (step c e).1 es).2)

/-- An environment in which the guard of `captureFrame` passes. -/
def connectedEnv : Env :=
  { video := true, canvas := true, socket := some { connected := true } }

/-- The scenario of 60 iterations per second for 10 seconds: iteration `k` (for
`k = 0, ..., 599`) of the only loop runs with the guard passing and the clock at
`t0 + k*1000/60` ms, rounded down as `Date.now()` does. -/
def sixtyHertz (t0 : Int) : List Event :=
  (List.range 600).map fun (k : Nat) => Event.frame 0 connectedEnv (t0 + ((k : Int) * 1000) / 60)

/-- The value of `lastImageSent` in the closure of effect run `i` (0 when there is no such
run). -/
def lastOf (c : Component) (i : Nat) : Int :=
  match c.loops[i]? with
  | none => 0
  | some l => l.lastImageSent

/-- Whether an event is an animation frame callback (and not a toggle change). -/
def Event.isFrame : Event → Bool
  | Event.frame _ _ _ => true
  | _ => false

/-- Two emits in the order they were made are at least 5000 ms apart. -/
def Apart (a b : Emit) : Prop :=
  a.now + 5000 ≤ b.now

instance : DecidableRel Apart :=
  fun a b => inferInstanceAs (Decidable (a.now + 5000 ≤ b.now))

/-- The iterations of one loop instance, one `(env, now)` pair per call of its
`captureFrame`: the clock readings of the iterations that emitted `request_caption`, in
order. -/
def loopEmits (l : Loop) : List (Env × Int) → List Int
  | [] => []
  | (env, now) :: rest =>
    (if Action.emit "request_caption" ∈ (captureFrame env now l).2 then [now] else [])
      ++ loopEmits (captureFrame env now l).1 rest

/-- The value of `lastImageSent` after each iteration of one loop instance. -/
def loopCounters (l : Loop) : List (Env × Int) → List Int
  | [] => []
  | (env, now) :: rest =>
    (captureFrame env now l).1.lastImageSent :: loopCounters (captureFrame env now l).1 rest

/-! ## Result handlers (`App.js`, lines 95-108) and on-demand requests (lines 115-188) -/

/-- The React state slots written by the socket handlers and the request functions. -/
structure AppState where
  caption : String
  ocrText : String
  connectionStatus : String
  recognizedFaces : List String
deriving DecidableEq, Repr

/-- The slots after the first render (the `useState` defaults). -/
def initialState : AppState :=
  { caption := "Initializing...", ocrText := "", connectionStatus := "Disconnected",
    recognizedFaces := [] }

/-- The argument a socket handler is called with: `undefined`/`null`, or an object whose
`caption` and `text` properties are each absent or a string. -/
inductive Payload
  | nullish
  | object (caption : Option String) (text : Option String)
deriving DecidableEq, Repr

/-- Truthiness of a property that is absent or a string: `undefined` and `""` are falsy. -/
def truthy : Option String → Bool
  | none => false
  | some v => v != ""

/-- The handler registered with `socket.on('caption_result', ...)` (lines 95-101).
Reading `result.caption` throws a `TypeError` when `result` is `undefined` or `null`. -/
def caption_result (result : Payload) (s : AppState) : Except String AppState :=
  match result with
  | Payload.nullish => Except.error "TypeError"
  | Payload.object caption _ =>
    if truthy caption then Except.ok { s with caption := caption.getD "" } else Except.ok s

/-- The handler registered with `socket.on('ocr_result', ...)` (lines 103-108). -/
def ocr_result (result : Payload) (s : AppState) : Except String AppState :=
  match result with
  | Payload.nullish => Except.error "TypeError"
  | Payload.object _ text =>
    if truthy text then Except.ok { s with ocrText := text.getD "" } else Except.ok s

/-- An inbound message on one of the two result channels. -/
inductive Inbound
  | caption_result (result : Payload)
  | ocr_result (result : Payload)
deriving DecidableEq, Repr

/-- Deliver one inbound message. A handler that throws does so before any `setState`
call, so the slots are as before. -/
def deliver (s : AppState) : Inbound → AppState
  | Inbound.caption_result r =>
    match caption_result r s with
    | Except.ok s1 => s1
    | Except.error _ => s
  | Inbound.ocr_result r =>
    match ocr_result r s with
    | Except.ok s1 => s1
    | Except.error _ => s

/-- Deliver a finite sequence of inbound messages in order. -/
def deliverAll (s : AppState) (ms : List Inbound) : AppState :=
  ms.foldl deliver s

/-- Specification side of last-message-wins: the non-empty caption carried by a message,
if it is a caption message with one. -/
def captionOf : Inbound → Option String
  | Inbound.caption_result (Payload.object (some c) _) => if c = "" then none else some c
  | _ => none

/-- Specification side of last-message-wins: the non-empty text carried by a message, if
it is an OCR message with one. -/
def textOf : Inbound → Option String
  | Inbound.ocr_result (Payload.object _ (some t)) => if t = "" then none else some t
  | _ => none

/-- Specification side of last-message-wins: the caption of the last caption message with
a non-empty caption, or `init` when there is none. -/
def lastCaption (init : String) (ms : List Inbound) : String :=
  ((ms.filterMap captionOf).getLast?).getD init

/-- Specification side of last-message-wins: the text of the last OCR message with a
non-empty text, or `init` when there is none. -/
def lastText (init : String) (ms : List Inbound) : String :=
  ((ms.filterMap textOf).getLast?).getD init

/-- What became of the request sent by `axios.post`. -/
inductive PostOutcome
  | networkError
  | response (status : Nat) (recognized_faces : List String)
deriving DecidableEq, Repr

/-- The promise returned by `axios.post` with the default `validateStatus`: it resolves
with `response.data.recognized_faces` in reach for a 2xx status and rejects otherwise. -/
def axiosPost : PostOutcome → Except String (List String)
  | PostOutcome.networkError => Except.error "Network Error"
  | PostOutcome.response status faces =>
    if 200 ≤ status ∧ status < 300 then Except.ok faces
    else Except.error "Request failed"

/-- How the promise of an `async` function settles. -/
inductive Settled
  | resolved
  | rejected
deriving DecidableEq, Repr

/-- Calls made by a request function, in program order: the frame capture, the encoding,
and the POST with its URL and the `command` form field when there is one. -/
inductive Call
  | drawImage
  | toDataURL
  | post (url : String) (command : Option String)
deriving DecidableEq, Repr

/-- The shared body of `recognizeFace` and `speech_command`: guard on the two refs,
capture, `await fetch(imageData).then(res => res.blob())` outside the `try` (so a
rejection there rejects the whole promise; `blobOk` says whether it resolved), then the
POST inside `try`/`catch`. -/
def request (url : String) (command : Option String) (env : Env) (blobOk : Bool)
    (outcome : PostOutcome) (s : AppState) : Settled × AppState × List Call :=
  if env.video && env.canvas then
    if blobOk then
      match axiosPost outcome with
      | Except.ok faces =>
        (Settled.resolved, { s with recognizedFaces := faces },
          [Call.drawImage, Call.toDataURL, Call.post url command])
      | Except.error _ =>
        (Settled.resolved, s, [Call.drawImage, Call.toDataURL, Call.post url command])
    else
      (Settled.rejected, s, [Call.drawImage, Call.toDataURL])
  else
    (Settled.resolved, s, [])

/-- The function `recognizeFace` (lines 115-148). -/
def recognizeFace (env : Env) (blobOk : Bool) (outcome : PostOutcome) (s : AppState) :
    Settled × AppState × List Call :=
  request "http://localhost:8080/recognize" none env blobOk outcome s

/-- The function `speech_command` (lines 155-188). -/
def speech_command (command : String) (env : Env) (blobOk : Bool) (outcome : PostOutcome)
    (s : AppState) : Settled × AppState × List Call :=
  request "http://localhost:8080/speech_command" (some command) env blobOk outcome s

/-! ## Speech recognition (`App.js`, lines 23-61) -/

/-- One `webkitSpeechRecognition` object: the value of `isSpeechEnabled` its `onend`
closure captured when the effect created it, whether it is listening, and how often
`start()` and `stop()` were called on it. -/
structure Recognizer where
  isSpeechEnabled : Bool
  listening : Bool
  startCalls : Nat
  stopCalls : Nat
deriving DecidableEq, Repr

/-- The speech part of the component: whether the browser has `webkitSpeechRecognition`,
the React state `isSpeechEnabled`, every recognizer constructed so far (oldest first) and
the module variable `recognition` as an index into them. -/
structure Speech where
  supported : Bool
  isSpeechEnabled : Bool
  recognizers : List Recognizer
  recognition : Option Nat
deriving DecidableEq, Repr

/-- The method `start()` on recognizer `i`. -/
def startRecognizer (i : Nat) (rs : List Recognizer) : List Recognizer :=
  match rs[i]? with
  | none => rs
  | some r => rs.set i { r with listening := true, startCalls := r.startCalls + 1 }

/-- The method `stop()` on recognizer `i`. -/
def stopRecognizer (i : Nat) (rs : List Recognizer) : List Recognizer :=
  match rs[i]? with
  | none => rs
  | some r => rs.set i { r with listening := false, stopCalls := r.stopCalls + 1 }

/-- The body of the speech effect (lines 24-47): with browser support it constructs a new
recognizer whose handlers close over the current `isSpeechEnabled`, and stores it in
`recognition`; it does not start it. -/
def speechEffect (s : Speech) : Speech :=
  if s.supported then
    { s with
      recognizers := s.recognizers ++
        [{ isSpeechEnabled := s.isSpeechEnabled, listening := false, startCalls := 0,
           stopCalls := 0 }],
      recognition := some s.recognizers.length }
  else s

/-- State after the first render: `useState(false)` and one run of the effect. -/
def mountSpeech (supported : Bool) : Speech :=
  speechEffect
    { supported := supported, isSpeechEnabled := false, recognizers := [], recognition := none }

/-- The handler `handleSpeechToggle` (lines 50-61) followed by the re-render that
`setIsSpeechEnabled` causes: the handler calls `start()`/`stop()` on whatever `recognition`
holds at that moment; then, if the state changed, the effect (dependency
`[isSpeechEnabled]`) runs again. -/
def handleSpeechToggle (checked : Bool) (s : Speech) : Speech :=
  let rs :=
    match s.recognition with
    | none => s.recognizers
    | some i => if checked then startRecognizer i s.recognizers else stopRecognizer i s.recognizers
  if checked = s.isSpeechEnabled then { s with recognizers := rs }
  else speechEffect { s with isSpeechEnabled := checked, recognizers := rs }

/-- The end-of-segment event of recognizer `i`: it stops listening and its `onend` handler
runs (lines 40-44), which tests the `isSpeechEnabled` it captured and, if true, calls
`start()` on the recognizer the module variable `recognition` holds now. -/
def onend (i : Nat) (s : Speech) : Speech :=
  match s.recognizers[i]? with
  | none => s
  | some r =>
    let rs := s.recognizers.set i { r with listening := false }
    if r.isSpeechEnabled then
      match s.recognition with
      | none => { s with recognizers := rs }
      | some j => { s with recognizers := startRecognizer j rs }
    else { s with recognizers := rs }

/-! ## Theorems: the dispatch loop -/

/-- The four ways one iteration can go. -/
theorem captureFrame_cases (env : Env) (now : Int) (l : Loop) :
    captureFrame env now l = (l, [Action.requestAnimationFrame]) ∨
    captureFrame env now l = (l, [Action.drawImage, Action.requestAnimationFrame]) ∨
    (l.lastImageSent + 5000 ≤ now ∧ captureFrame env now l =
      ({ l with lastImageSent := now },
        [Action.drawImage, Action.toDataURL, Action.requestAnimationFrame])) ∨
    (l.lastImageSent + 5000 ≤ now ∧ captureFrame env now l =
      ({ l with lastImageSent := now },
        [Action.drawImage, Action.toDataURL, Action.emit "request_caption",
          Action.requestAnimationFrame])) := by
  unfold captureFrame
  by_cases hg : (env.video && env.canvas && socketConnected env.socket) = true
  · by_cases ht : ((l.isCaptionEnabled || l.isOcrEnabled) &&
        decide (now - l.lastImageSent ≥ 5000)) = true
    · have hnow : l.lastImageSent + 5000 ≤ now := by
        simp only [Bool.and_eq_true, decide_eq_true_eq] at ht
        omega
      rw [if_pos hg, if_pos ht]
      by_cases hc : l.isCaptionEnabled = true
      · right; right; right
        refine ⟨hnow, ?_⟩
        rw [if_pos hc]
        rfl
      · right; right; left
        refine ⟨hnow, ?_⟩
        rw [if_neg hc]
        rfl
    · right; left
      rw [if_pos hg, if_neg ht]
  · left
    rw [if_neg hg]

/-- An animation frame callback keeps the number of loops. -/
theorem step_frame_length (c : Component) (i : Nat) (env : Env) (now : Int) :
    (step c (Event.frame i env now)).1.loops.length = c.loops.length := by
  unfold step
  cases h : c.loops[i]? with
  | none => simp [h]
  | some l => simp [h]

/-- An animation frame callback never lowers any counter. -/
theorem lastOf_step_frame (c : Component) (i : Nat) (env : Env) (now : Int) (k : Nat) :
    lastOf c k ≤ lastOf (step c (Event.frame i env now)).1 k := by
  unfold step
  cases h : c.loops[i]? with
  | none => simp [h]
  | some l =>
    have hi : i < c.loops.length := by
      rcases List.getElem?_eq_some.1 h with ⟨hi, _⟩
      exact hi
    by_cases hk : i = k
    · subst hk
      simp only [lastOf, h, List.getElem?_set_self hi]
      rcases captureFrame_cases env now l with h1 | h1 | ⟨h0, h1⟩ | ⟨h0, h1⟩ <;>
        simp [h1] <;> omega
    · simp [lastOf, h, List.getElem?_set_ne hk]

/-- What an emit made by an animation frame callback tells about the counter. -/
theorem step_frame_emit (c : Component) (i : Nat) (env : Env) (now : Int) (e : Emit)
    (he : e ∈ (step c (Event.frame i env now)).2) :
    e = { loop := i, event := "request_caption", now := now } ∧ i < c.loops.length ∧
      lastOf c i + 5000 ≤ now ∧ lastOf (step c (Event.frame i env now)).1 i = now := by
  unfold step at he ⊢
  cases h : c.loops[i]? with
  | none => simp [h] at he
  | some l =>
    have hi : i < c.loops.length := by
      rcases List.getElem?_eq_some.1 h with ⟨hi, _⟩
      exact hi
    simp only [h] at he ⊢
    rcases captureFrame_cases env now l with h1 | h1 | ⟨h0, h1⟩ | ⟨h0, h1⟩
    · simp [h1, emitsOf] at he
    · simp [h1, emitsOf] at he
    · simp [h1, emitsOf] at he
    · simp only [h1, emitsOf, List.mem_singleton] at he
      refine ⟨he, hi, ?_, ?_⟩
      · simpa [lastOf, h] using h0
      · simp [lastOf, h1, List.getElem?_set_self hi]

/-- An animation frame callback makes at most one emit. -/
theorem step_frame_emits (c : Component) (i : Nat) (env : Env) (now : Int) :
    (step c (Event.frame i env now)).2 = [] ∨
      (step c (Event.frame i env now)).2 =
        [{ loop := i, event := "request_caption", now := now }] := by
  unfold step
  cases h : c.loops[i]? with
  | none => simp [h]
  | some l =>
    rcases captureFrame_cases env now l with h1 | h1 | ⟨_, h1⟩ | ⟨_, h1⟩ <;>
      simp [h, h1, emitsOf]

/-- Running a sequence of events, first event first. -/
theorem run_cons (c : Component) (e : Event) (es : List Event) :
    run c (e :: es) = ((run (step c e).1 es).1, (step c e).2 ++ (run (step c e).1 es).2) :=
  rfl

/-- Running two sequences of events one after the other. -/
theorem run_append (c : Component) (es fs : List Event) :
    run c (es ++ fs) = ((run (run c es).1 fs).1, (run c es).2 ++ (run (run c es).1 fs).2) := by
  induction es generalizing c with
  | nil => simp [run]
  | cons e es ih => simp [run, ih, List.append_assoc]

/-- While no toggle changes, every emit of loop `i` comes at least 5000 ms after the value
its counter had at the start. -/
theorem emit_after_counter (es : List Event) (c : Component) (i : Nat)
    (hes : ∀ e ∈ es, e.isFrame = true) (e : Emit) (he : e ∈ (run c es).2)
    (hi : e.loop = i) : lastOf c i + 5000 ≤ e.now := by
  induction es generalizing c with
  | nil => simp [run] at he
  | cons ev es ih =>
    have hes2 : ∀ e ∈ es, e.isFrame = true := fun e h => hes e (List.mem_cons_of_mem _ h)
    cases ev with
    | handleCaptionToggle b => simpa [Event.isFrame] using hes _ (List.mem_cons_self _ _)
    | handleOcrToggle b => simpa [Event.isFrame] using hes _ (List.mem_cons_self _ _)
    | frame j env now =>
      simp only [run, List.mem_append] at he
      rcases he with he | he
      · obtain ⟨h1, _, h3, _⟩ := step_frame_emit c j env now e he
        subst h1
        simp only at hi
        subst hi
        simpa using h3
      · have := ih (step c (Event.frame j env now)).1 hes2 he
        have hm := lastOf_step_frame c j env now i
        omega

/-- While no toggle changes, the emits of any one loop are pairwise at least 5000 ms
apart, in the order they were made. -/
theorem loop_emits_apart (es : List Event) (c : Component) (i : Nat)
    (hes : ∀ e ∈ es, e.isFrame = true) :
    List.Pairwise Apart ((run c es).2.filter fun e => decide (e.loop = i)) := by
  induction es generalizing c with
  | nil => simp [run]
  | cons ev es ih =>
    have hes2 : ∀ e ∈ es, e.isFrame = true := fun e h => hes e (List.mem_cons_of_mem _ h)
    cases ev with
    | handleCaptionToggle b => simpa [Event.isFrame] using hes _ (List.mem_cons_self _ _)
    | handleOcrToggle b => simpa [Event.isFrame] using hes _ (List.mem_cons_self _ _)
    | frame j env now =>
      simp only [run, List.filter_append]
      rw [List.pairwise_append]
      refine ⟨?_, ih _ hes2, ?_⟩
      · rcases step_frame_emits c j env now with h | h <;> rw [h]
        · simp
        · by_cases hj : j = i <;> simp [List.filter, hj]
      · intro a ha b hb
        simp only [List.mem_filter, decide_eq_true_eq] at ha hb
        obtain ⟨h1, _, _, h4⟩ := step_frame_emit c j env now a ha.1
        have hb2 := emit_after_counter es _ i hes2 b hb.1 hb.2
        have hji : j = i := by rw [← ha.2, h1]
        subst hji
        rw [h4] at hb2
        have : a.now = now := by rw [h1]
        unfold Apart
        omega

/-- While no toggle changes, only loops that exist emit. -/
theorem emit_loop_lt (es : List Event) (c : Component)
    (hes : ∀ e ∈ es, e.isFrame = true) (e : Emit) (he : e ∈ (run c es).2) :
    e.loop < c.loops.length := by
  induction es generalizing c with
  | nil => simp [run] at he
  | cons ev es ih =>
    have hes2 : ∀ e ∈ es, e.isFrame = true := fun e h => hes e (List.mem_cons_of_mem _ h)
    cases ev with
    | handleCaptionToggle b => simpa [Event.isFrame] using hes _ (List.mem_cons_self _ _)
    | handleOcrToggle b => simpa [Event.isFrame] using hes _ (List.mem_cons_self _ _)
    | frame j env now =>
      simp only [run, List.mem_append] at he
      rcases he with he | he
      · obtain ⟨h1, h2, _, _⟩ := step_frame_emit c j env now e he
        rw [h1]
        exact h2
      · have := ih _ hes2 he
        rwa [step_frame_length] at this

/-- An iteration with the guard passing but inside the 5000 ms window only draws. -/
theorem captureFrame_quiet (now : Int) (l : Loop) (h : now < l.lastImageSent + 5000) :
    captureFrame connectedEnv now l = (l, [Action.drawImage, Action.requestAnimationFrame]) := by
  have h2 : ¬ (now - l.lastImageSent ≥ 5000) := by omega
  simp [captureFrame, connectedEnv, socketConnected, h2]

/-- An iteration with the guard passing, captioning on and the window elapsed emits. -/
theorem captureFrame_fire (now : Int) (l : Loop) (hc : l.isCaptionEnabled = true)
    (h : l.lastImageSent + 5000 ≤ now) :
    captureFrame connectedEnv now l = ({ l with lastImageSent := now },
      [Action.drawImage, Action.toDataURL, Action.emit "request_caption",
        Action.requestAnimationFrame]) := by
  have h2 : now - l.lastImageSent ≥ 5000 := by omega
  simp [captureFrame, connectedEnv, socketConnected, h2, hc]

/-- A stretch of iterations of a single loop that all fall inside the window changes
nothing and emits nothing. -/
theorem run_quiet (cap ocr : Bool) (l : Loop) (es : List Event)
    (h : ∀ e ∈ es, ∃ now, e = Event.frame 0 connectedEnv now ∧ now < l.lastImageSent + 5000) :
    run { isCaptionEnabled := cap, isOcrEnabled := ocr, loops := [l] } es
      = ({ isCaptionEnabled := cap, isOcrEnabled := ocr, loops := [l] }, []) := by
  induction es with
  | nil => rfl
  | cons e es ih =>
    obtain ⟨now, he, hnow⟩ := h e (List.mem_cons_self _ _)
    have hstep : step { isCaptionEnabled := cap, isOcrEnabled := ocr, loops := [l] } e
        = ({ isCaptionEnabled := cap, isOcrEnabled := ocr, loops := [l] }, []) := by
      subst he
      simp [step, captureFrame_quiet now l hnow, emitsOf]
    have ih2 := ih fun e he => h e (List.mem_cons_of_mem _ he)
    simp [run, hstep, ih2]

/-- One iteration of a single captioning loop once the window has elapsed. -/
theorem step_fire (ocr : Bool) (last now : Int) (h : last + 5000 ≤ now) :
    step
        { isCaptionEnabled := true, isOcrEnabled := ocr,
          loops := [{ isCaptionEnabled := true, isOcrEnabled := ocr, lastImageSent := last }] }
        (Event.frame 0 connectedEnv now)
      = ({ isCaptionEnabled := true, isOcrEnabled := ocr,
            loops := [{ isCaptionEnabled := true, isOcrEnabled := ocr, lastImageSent := now }] },
          [{ loop := 0, event := "request_caption", now := now }]) := by
  have hf := captureFrame_fire now
    { isCaptionEnabled := true, isOcrEnabled := ocr, lastImageSent := last } rfl h
  simp [step, hf, emitsOf]

/-- The 600 iteration numbers, split at the two iterations that emit. -/
theorem range_600_split :
    List.range 600 = 0 :: (List.range' 1 299 ++ 300 :: List.range' 301 299) := by
  rw [List.range_eq_range']
  have h1 : List.range' 0 600 = 0 :: List.range' 1 599 := List.range'_succ 0 599 1
  have h2 : List.range' 1 599 = List.range' 1 299 ++ List.range' 300 300 := by
    simpa using (List.range'_append_1 1 299 300).symm
  have h3 : List.range' 300 300 = 300 :: List.range' 301 299 := List.range'_succ 300 299 1
  rw [h1, h2, h3]

/-! ### Throttling across and between toggle changes -/

/-- C1 (amended). From any state of the component and for any run of animation frame
callbacks with no toggle change among them (any loops, any clock readings, any connection
state), the `request_caption` emits made by the loop of the latest effect run are
pairwise at least 5000 ms apart; and while the effect has run only once these are all the
emits on the socket. -/
theorem C1_throttle_between_toggle_changes (c : Component) (es : List Event)
    (hes : ∀ e ∈ es, e.isFrame = true) :
    List.Pairwise Apart
        ((run c es).2.filter fun e => decide (e.loop = c.loops.length - 1)) ∧
      (c.loops.length = 1 → List.Pairwise Apart (run c es).2) := by
  refine ⟨loop_emits_apart es c _ hes, fun h1 => ?_⟩
  have hall : ((run c es).2.filter fun e => decide (e.loop = 0)) = (run c es).2 := by
    rw [List.filter_eq_self]
    intro e he
    have := emit_loop_lt es c hes e he
    simp only [decide_eq_true_eq]
    omega
  rw [← hall]
  exact loop_emits_apart es c 0 hes

/-- C1 (amended) at a concrete input: two frames of the first loop 5000 ms apart. -/
theorem C1_throttle_between_toggle_changes_witness :
    (∀ e ∈ [Event.frame 0 connectedEnv 1700000000000,
        Event.frame 0 connectedEnv 1700000005000], e.isFrame = true) ∧
      List.Pairwise Apart
        ((run mount [Event.frame 0 connectedEnv 1700000000000,
          Event.frame 0 connectedEnv 1700000005000]).2.filter
            fun e => decide (e.loop = mount.loops.length - 1)) ∧
      List.Pairwise Apart
        (run mount [Event.frame 0 connectedEnv 1700000000000,
          Event.frame 0 connectedEnv 1700000005000]).2 :=
  ⟨by decide,
    (C1_throttle_between_toggle_changes mount _ (by decide)).1,
    (C1_throttle_between_toggle_changes mount _ (by decide)).2 rfl⟩

/-- C1 as stated fails. With the socket connected throughout: the first loop emits at
1700000000000; the OCR toggle is switched on, which runs the cleanup (counter back to 0)
and the effect again; on the next frame, 16 ms later, both the old loop and the new one
emit. -/
theorem C1_toggle_change_breaks_throttle :
    (run mount [Event.frame 0 connectedEnv 1700000000000, Event.handleOcrToggle true,
        Event.frame 0 connectedEnv 1700000000016,
        Event.frame 1 connectedEnv 1700000000016]).2
      = [{ loop := 0, event := "request_caption", now := 1700000000000 },
          { loop := 0, event := "request_caption", now := 1700000000016 },
          { loop := 1, event := "request_caption", now := 1700000000016 }] ∧
    ¬ List.Pairwise Apart
      (run mount [Event.frame 0 connectedEnv 1700000000000, Event.handleOcrToggle true,
        Event.frame 0 connectedEnv 1700000000016,
        Event.frame 1 connectedEnv 1700000000016]).2 := by
  decide

/-- C2 on the code. Captioning is switched off right after mount; the effect runs again,
but the loop of the first run is still scheduled with `isCaptionEnabled = true` in its
closure, and on the next frame it emits although the toggle is off. -/
theorem C2_stale_loop_emits_after_disable :
    run mount [Event.handleCaptionToggle false, Event.frame 0 connectedEnv 1700000000000,
        Event.frame 1 connectedEnv 1700000000000]
      = ({ isCaptionEnabled := false, isOcrEnabled := false,
            loops := [{ isCaptionEnabled := true, isOcrEnabled := false,
                        lastImageSent := 1700000000000 },
                      { isCaptionEnabled := false, isOcrEnabled := false,
                        lastImageSent := 0 }] },
          [{ loop := 0, event := "request_caption", now := 1700000000000 }]) := by
  decide

/-- C7. With captioning on, OCR off, the guard passing throughout and 600 iterations at
60 per second starting at a clock reading `t0 ≥ 5000`, the socket sees exactly two emits,
both `request_caption`, at `t0` and at `t0 + 5000`. -/
theorem C7_sixty_hertz_scenario (t0 : Int) (ht : 5000 ≤ t0) :
    (run mount (sixtyHertz t0)).2
      = [{ loop := 0, event := "request_caption", now := t0 },
          { loop := 0, event := "request_caption", now := t0 + 5000 }] := by
  have hA : ∀ e ∈ (List.range' 1 299).map
      (fun k : Nat => Event.frame 0 connectedEnv (t0 + ((k : Int) * 1000) / 60)),
      ∃ now, e = Event.frame 0 connectedEnv now ∧ now < t0 + 5000 := by
    intro e he
    simp only [List.mem_map, List.mem_range'_1] at he
    obtain ⟨k, ⟨hk1, hk2⟩, rfl⟩ := he
    exact ⟨_, rfl, by omega⟩
  have hB : ∀ e ∈ (List.range' 301 299).map
      (fun k : Nat => Event.frame 0 connectedEnv (t0 + ((k : Int) * 1000) / 60)),
      ∃ now, e = Event.frame 0 connectedEnv now ∧ now < (t0 + 5000) + 5000 := by
    intro e he
    simp only [List.mem_map, List.mem_range'_1] at he
    obtain ⟨k, ⟨hk1, hk2⟩, rfl⟩ := he
    exact ⟨_, rfl, by omega⟩
  have qA := run_quiet true false
    { isCaptionEnabled := true, isOcrEnabled := false, lastImageSent := t0 } _ hA
  have qB := run_quiet true false
    { isCaptionEnabled := true, isOcrEnabled := false, lastImageSent := t0 + 5000 } _ hB
  have f0 := step_fire false 0 t0 (by omega)
  have f1 := step_fire false t0 (t0 + 5000) (by omega)
  have e0 : t0 + ((0 : Nat) : Int) * 1000 / 60 = t0 := by simp
  have e1 : t0 + ((300 : Nat) : Int) * 1000 / 60 = t0 + 5000 := by norm_num
  unfold sixtyHertz
  rw [range_600_split]
  simp only [List.map_cons, List.map_append, e0, e1]
  have hm : mount =
      { isCaptionEnabled := true, isOcrEnabled := false,
        loops := [{ isCaptionEnabled := true, isOcrEnabled := false, lastImageSent := 0 }] } :=
    rfl
  rw [hm, run_cons, f0, run_append, qA, run_cons, f1, qB]
  rfl

/-- C7 at a concrete input: the scenario started at clock reading 5000. -/
theorem C7_sixty_hertz_scenario_witness :
    (5000 : Int) ≤ 5000 ∧ (run mount (sixtyHertz 5000)).2
      = [{ loop := 0, event := "request_caption", now := 5000 },
          { loop := 0, event := "request_caption", now := 5000 + 5000 }] :=
  ⟨by decide, C7_sixty_hertz_scenario 5000 (by decide)⟩

/-! ### Single iterations -/


/-- C8. In an iteration where the socket is absent or `socket.connected` is false, the
only action is the final `requestAnimationFrame`: nothing is emitted, the closure is
unchanged and the next iteration is scheduled. -/
theorem C8_disconnected_iteration (env : Env) (now : Int) (l : Loop)
    (h : env.socket = none ∨ ∃ s, env.socket = some s ∧ s.connected = false) :
    captureFrame env now l = (l, [Action.requestAnimationFrame]) := by
  have hs : socketConnected env.socket = false := by
    rcases h with h | ⟨s, h, hc⟩
    · simp [h, socketConnected]
    · simp [h, socketConnected, hc]
  simp [captureFrame, hs]

/-- C8 at a concrete input: no socket at all. -/
theorem C8_disconnected_iteration_witness :
    captureFrame { video := true, canvas := true, socket := none } 1700000000000
        (startLoop true false)
      = (startLoop true false, [Action.requestAnimationFrame]) :=
  C8_disconnected_iteration _ _ _ (Or.inl rfl)

/-- C9 (amended). An iteration draws the video frame into the canvas exactly when the
video and the canvas exist and the socket is connected, whatever the toggle values, the
counter and the clock; with the socket absent or disconnected nothing is drawn. -/
theorem C9_capture_iff_guard (env : Env) (now : Int) (l : Loop) :
    Action.drawImage ∈ (captureFrame env now l).2 ↔
      (env.video = true ∧ env.canvas = true ∧ socketConnected env.socket = true) := by
  rcases captureFrame_cases env now l with h | h | ⟨_, h⟩ | ⟨_, h⟩
  · have hg : ¬ (env.video && env.canvas && socketConnected env.socket) = true := by
      intro hg
      have h2 := h
      unfold captureFrame at h2
      rw [if_pos hg] at h2
      split at h2 <;> simp at h2
    rw [h]
    simp only [Bool.and_eq_true] at hg
    constructor
    · intro hm
      simp at hm
    · intro hm
      exact absurd ⟨⟨hm.1, hm.2.1⟩, hm.2.2⟩ hg
  all_goals
    have hg : (env.video && env.canvas && socketConnected env.socket) = true := by
      by_contra hg
      have h2 := h
      unfold captureFrame at h2
      rw [if_neg hg] at h2
      simp at h2
    rw [h]
    simp only [Bool.and_eq_true] at hg
    constructor
    · intro _
      exact ⟨hg.1.1, hg.1.2, hg.2⟩
    · intro _
      simp

/-- C9 as stated fails: with video and canvas present but the socket disconnected, the
iteration draws nothing. -/
theorem C9_no_capture_while_disconnected :
    Action.drawImage ∉
      (captureFrame { video := true, canvas := true, socket := some { connected := false } }
        1700000000000 (startLoop true false)).2 := by
  decide

/-- C10 (amended). In an iteration in which the video and the canvas exist and the socket
is connected (the guard of line 195 passes): if a
toggle is on and 5000 ms have elapsed, `lastImageSent` becomes `now`, and
`request_caption` is emitted exactly when captioning is on, so with captioning off and
OCR on the counter advances and nothing is emitted; in every other such iteration the
closure is unchanged and nothing is emitted. -/
theorem C10_counter_advances (env : Env) (now : Int) (l : Loop)
    (hv : env.video = true) (hc : env.canvas = true)
    (hs : ∃ s, env.socket = some s ∧ s.connected = true) :
    (((l.isCaptionEnabled || l.isOcrEnabled) = true ∧ now - l.lastImageSent ≥ 5000) →
        (captureFrame env now l).1 = { l with lastImageSent := now } ∧
        ∀ ev, Action.emit ev ∈ (captureFrame env now l).2 ↔
          (l.isCaptionEnabled = true ∧ ev = "request_caption")) ∧
    (l.isCaptionEnabled = false → l.isOcrEnabled = true → now - l.lastImageSent ≥ 5000 →
        (captureFrame env now l).1.lastImageSent = now ∧
        ∀ ev, Action.emit ev ∉ (captureFrame env now l).2) ∧
    (¬ ((l.isCaptionEnabled || l.isOcrEnabled) = true ∧ now - l.lastImageSent ≥ 5000) →
        (captureFrame env now l).1 = l ∧
        ∀ ev, Action.emit ev ∉ (captureFrame env now l).2) := by
  obtain ⟨sk, hsk, hconn⟩ := hs
  have hg : (env.video && env.canvas && socketConnected env.socket) = true := by
    simp [hv, hc, hsk, socketConnected, hconn]
  refine ⟨?_, ?_, ?_⟩
  · rintro ⟨ht, hn⟩
    have hcond : ((l.isCaptionEnabled || l.isOcrEnabled) &&
        decide (now - l.lastImageSent ≥ 5000)) = true := by
      simp only [Bool.and_eq_true, decide_eq_true_eq]
      exact ⟨ht, hn⟩
    unfold captureFrame
    rw [if_pos hg, if_pos hcond]
    refine ⟨rfl, fun ev => ?_⟩
    by_cases hcap : l.isCaptionEnabled = true
    · simp [hcap, eq_comm]
    · simp [hcap]
  · intro hcap hocr hn
    have hcond : ((l.isCaptionEnabled || l.isOcrEnabled) &&
        decide (now - l.lastImageSent ≥ 5000)) = true := by
      simp only [Bool.and_eq_true, decide_eq_true_eq]
      exact ⟨by simp [hocr], hn⟩
    unfold captureFrame
    rw [if_pos hg, if_pos hcond]
    refine ⟨rfl, fun ev => ?_⟩
    simp [hcap]
  · intro hnot
    have hcond : ¬ ((l.isCaptionEnabled || l.isOcrEnabled) &&
        decide (now - l.lastImageSent ≥ 5000)) = true := by
      simp only [Bool.and_eq_true, decide_eq_true_eq]
      exact hnot
    unfold captureFrame
    rw [if_pos hg, if_neg hcond]
    refine ⟨rfl, fun ev => ?_⟩
    simp

/-- C10 at a concrete input: captioning off, OCR on, first iteration with the guard
passing: the counter is set to the clock reading and nothing is emitted. -/
theorem C10_counter_advances_witness :
    (captureFrame connectedEnv 1700000000000 (startLoop false true)).1.lastImageSent
        = 1700000000000 ∧
      ∀ ev, Action.emit ev ∉ (captureFrame connectedEnv 1700000000000 (startLoop false true)).2 :=
  (C10_counter_advances connectedEnv 1700000000000 (startLoop false true) rfl rfl
    ⟨{ connected := true }, rfl, rfl⟩).2.1 rfl rfl (by decide)

/-- C10 as stated fails. The socket is connected, OCR is on and the window has elapsed,
but `videoRef.current` and `canvasRef.current` are null (as after unmount, when the chain
still runs): the guard of line 195 skips the throttle branch, the only call is
`requestAnimationFrame`, and `lastImageSent` stays 0 instead of becoming `now`. -/
theorem C10_counter_kept_without_refs :
    socketConnected (some { connected := true }) = true ∧
      ((startLoop false true).isCaptionEnabled || (startLoop false true).isOcrEnabled) = true ∧
      (1700000000000 : Int) - (startLoop false true).lastImageSent ≥ 5000 ∧
      captureFrame { video := false, canvas := false, socket := some { connected := true } }
          1700000000000 (startLoop false true)
        = (startLoop false true, [Action.requestAnimationFrame]) ∧
      (captureFrame { video := false, canvas := false, socket := some { connected := true } }
          1700000000000 (startLoop false true)).1.lastImageSent ≠ 1700000000000 := by
  decide

/-! ### One loop instance -/

/-- What one iteration does to the counter: either the closure is unchanged, or the
counter becomes the clock reading, which is then at least 5000 ms past its old value; an
emit happens only in the second case. -/
theorem captureFrame_counter (env : Env) (now : Int) (l : Loop) :
    ((captureFrame env now l).1 = l ∨
        ((captureFrame env now l).1.lastImageSent = now ∧ l.lastImageSent + 5000 ≤ now)) ∧
      (Action.emit "request_caption" ∈ (captureFrame env now l).2 →
        (captureFrame env now l).1.lastImageSent = now ∧ l.lastImageSent + 5000 ≤ now) := by
  rcases captureFrame_cases env now l with h | h | ⟨h0, h⟩ | ⟨h0, h⟩
  · rw [h]
    exact ⟨Or.inl rfl, fun hm => by simp at hm⟩
  · rw [h]
    exact ⟨Or.inl rfl, fun hm => by simp at hm⟩
  · rw [h]
    exact ⟨Or.inr ⟨rfl, h0⟩, fun _ => ⟨rfl, h0⟩⟩
  · rw [h]
    exact ⟨Or.inr ⟨rfl, h0⟩, fun _ => ⟨rfl, h0⟩⟩

/-- One iteration never lowers the counter. -/
theorem captureFrame_counter_le (env : Env) (now : Int) (l : Loop) :
    l.lastImageSent ≤ (captureFrame env now l).1.lastImageSent := by
  rcases (captureFrame_counter env now l).1 with h | ⟨h1, h2⟩
  · rw [h]
  · omega

/-- Every emit of a loop instance comes at least 5000 ms after the value its counter had
before the iterations. -/
theorem loopEmits_after (ticks : List (Env × Int)) (l : Loop) (e : Int)
    (he : e ∈ loopEmits l ticks) : l.lastImageSent + 5000 ≤ e := by
  induction ticks generalizing l with
  | nil => simp [loopEmits] at he
  | cons t rest ih =>
    obtain ⟨env, now⟩ := t
    simp only [loopEmits, List.mem_append] at he
    rcases he with he | he
    · by_cases hm : Action.emit "request_caption" ∈ (captureFrame env now l).2
      · rw [if_pos hm, List.mem_singleton] at he
        have := ((captureFrame_counter env now l).2 hm).2
        omega
      · rw [if_neg hm] at he
        simp at he
    · have h1 := ih _ he
      have h2 := captureFrame_counter_le env now l
      omega

/-- The emits of a loop instance are pairwise at least 5000 ms apart, in order. -/
theorem loopEmits_pairwise (ticks : List (Env × Int)) (l : Loop) :
    List.Pairwise (fun a b => a + 5000 ≤ b) (loopEmits l ticks) := by
  induction ticks generalizing l with
  | nil => simp [loopEmits]
  | cons t rest ih =>
    obtain ⟨env, now⟩ := t
    simp only [loopEmits]
    rw [List.pairwise_append]
    refine ⟨?_, ih _, ?_⟩
    · by_cases hm : Action.emit "request_caption" ∈ (captureFrame env now l).2
      · rw [if_pos hm]
        simp
      · rw [if_neg hm]
        simp
    · intro a ha b hb
      by_cases hm : Action.emit "request_caption" ∈ (captureFrame env now l).2
      · rw [if_pos hm, List.mem_singleton] at ha
        have h1 := ((captureFrame_counter env now l).2 hm).1
        have h2 := loopEmits_after rest _ b hb
        omega
      · rw [if_neg hm] at ha
        simp at ha

/-- After `k + 1` iterations the counter is its starting value or the clock reading of one
of those iterations. -/
theorem loopCounters_origin (ticks : List (Env × Int)) (l : Loop) (k : Nat) (v : Int)
    (hv : (loopCounters l ticks)[k]? = some v) :
    v = l.lastImageSent ∨ v ∈ (ticks.take (k + 1)).map Prod.snd := by
  induction ticks generalizing l k with
  | nil => simp [loopCounters] at hv
  | cons t rest ih =>
    obtain ⟨env, now⟩ := t
    have hstep := (captureFrame_counter env now l).1
    cases k with
    | zero =>
      simp only [loopCounters, List.getElem?_cons_zero, Option.some.injEq] at hv
      rcases hstep with h | ⟨h, _⟩
      · left
        rw [← hv, h]
      · right
        simp [← hv, h]
    | succ j =>
      simp only [loopCounters, List.getElem?_cons_succ] at hv
      rcases ih _ j hv with h | h
      · rcases hstep with h2 | ⟨h2, _⟩
        · left
          rw [h, h2]
        · right
          simp [h, h2]
      · right
        simp only [List.take_succ_cons, List.map_cons, List.mem_cons]
        exact Or.inr h

/-- From one iteration to the next the counter never decreases. -/
theorem loopCounters_chain (ticks : List (Env × Int)) (l : Loop) :
    List.Chain (fun a b : Int => a ≤ b) l.lastImageSent (loopCounters l ticks) := by
  induction ticks generalizing l with
  | nil => exact List.Chain.nil
  | cons t rest ih =>
    obtain ⟨env, now⟩ := t
    exact List.Chain.cons (captureFrame_counter_le env now l) (ih _)

/-- C11. For one run of the dispatch effect (toggle values fixed in the closure, counter
starting at 0, cleanup not run) and any sequence of iterations, with any clock readings
and any connection state at each of them: the readings at which `request_caption` is
emitted are pairwise at least 5000 ms apart in the order of the emits; after every
iteration `lastImageSent` is 0 or the clock reading of an iteration that has run; and
from 0 onwards `lastImageSent` never decreases. -/
theorem C11_single_loop_throttle (isCaptionEnabled isOcrEnabled : Bool)
    (ticks : List (Env × Int)) :
    List.Pairwise (fun a b => a + 5000 ≤ b)
        (loopEmits (startLoop isCaptionEnabled isOcrEnabled) ticks) ∧
      (∀ (k : Nat) (v : Int),
        (loopCounters (startLoop isCaptionEnabled isOcrEnabled) ticks)[k]? = some v →
          v = 0 ∨ v ∈ (ticks.take (k + 1)).map Prod.snd) ∧
      List.Chain (fun a b : Int => a ≤ b) 0
        (loopCounters (startLoop isCaptionEnabled isOcrEnabled) ticks) :=
  ⟨loopEmits_pairwise ticks _,
    fun k v hv => loopCounters_origin ticks (startLoop isCaptionEnabled isOcrEnabled) k v hv,
    loopCounters_chain ticks (startLoop isCaptionEnabled isOcrEnabled)⟩

/-- C11 at a concrete input: a captioning loop iterating at clock readings 100, 6000 and
11000 with the guard passing; after the second iteration the counter is 6000, the reading
of that iteration. -/
theorem C11_single_loop_throttle_witness :
    List.Pairwise (fun a b => a + 5000 ≤ b)
        (loopEmits (startLoop true false)
          [(connectedEnv, 100), (connectedEnv, 6000), (connectedEnv, 11000)]) ∧
      (loopCounters (startLoop true false)
          [(connectedEnv, 100), (connectedEnv, 6000), (connectedEnv, 11000)])[1]?
        = some 6000 ∧
      ((6000 : Int) = 0 ∨
        (6000 : Int) ∈
          (([(connectedEnv, 100), (connectedEnv, 6000), (connectedEnv, 11000)] :
            List (Env × Int)).take (1 + 1)).map Prod.snd) ∧
      List.Chain (fun a b : Int => a ≤ b) 0
        (loopCounters (startLoop true false)
          [(connectedEnv, 100), (connectedEnv, 6000), (connectedEnv, 11000)]) :=
  ⟨(C11_single_loop_throttle true false _).1, by decide,
    (C11_single_loop_throttle true false
      [(connectedEnv, 100), (connectedEnv, 6000), (connectedEnv, 11000)]).2.1 1 6000
      (by decide),
    (C11_single_loop_throttle true false _).2.2⟩

/-! ## Theorems: speech recognition -/

/-- C3 on the code. After mount with browser support, enabling speech starts the
recognizer created while speech was off and the effect then replaces it by a new, idle one
(first equation). The end-of-segment event of the started recognizer finds `false` in its
closure and restarts nothing (second equation); disabling instead calls `stop()` on the
new recognizer and leaves the started one listening (third equation). -/
theorem C3_speech_bridge_on_the_code :
    handleSpeechToggle true (mountSpeech true)
      = { supported := true, isSpeechEnabled := true,
          recognizers :=
            [{ isSpeechEnabled := false, listening := true, startCalls := 1, stopCalls := 0 },
             { isSpeechEnabled := true, listening := false, startCalls := 0, stopCalls := 0 }],
          recognition := some 1 } ∧
    onend 0 (handleSpeechToggle true (mountSpeech true))
      = { supported := true, isSpeechEnabled := true,
          recognizers :=
            [{ isSpeechEnabled := false, listening := false, startCalls := 1, stopCalls := 0 },
             { isSpeechEnabled := true, listening := false, startCalls := 0, stopCalls := 0 }],
          recognition := some 1 } ∧
    handleSpeechToggle false (handleSpeechToggle true (mountSpeech true))
      = { supported := true, isSpeechEnabled := false,
          recognizers :=
            [{ isSpeechEnabled := false, listening := true, startCalls := 1, stopCalls := 0 },
             { isSpeechEnabled := true, listening := false, startCalls := 0, stopCalls := 1 },
             { isSpeechEnabled := false, listening := false, startCalls := 0, stopCalls := 0 }],
          recognition := some 2 } := by
  decide

/-! ## Theorems: result handlers -/

/-- C4. A `caption_result` message whose payload has no caption (`{}`) or an empty one
(`{caption: ""}`), whatever else it carries, is handled without an error and leaves every
slot as it was. -/
theorem C4_malformed_caption_ignored (s : AppState) (text : Option String) :
    caption_result (Payload.object none text) s = Except.ok s ∧
      caption_result (Payload.object (some "") text) s = Except.ok s := by
  constructor <;> simp [caption_result, truthy]

/-- The caption slot after one message. -/
theorem deliver_caption (s : AppState) (m : Inbound) :
    (deliver s m).caption = (captionOf m).getD s.caption := by
  cases m with
  | caption_result r =>
    cases r with
    | nullish => rfl
    | object c t =>
      cases c with
      | none => simp [deliver, Vision.caption_result, truthy, captionOf]
      | some c =>
        by_cases h : c = "" <;> simp [deliver, Vision.caption_result, truthy, captionOf, h]
  | ocr_result r =>
    cases r with
    | nullish => rfl
    | object c t =>
      by_cases h : truthy t = true <;> simp [deliver, Vision.ocr_result, captionOf, h]

/-- The OCR slot after one message. -/
theorem deliver_ocrText (s : AppState) (m : Inbound) :
    (deliver s m).ocrText = (textOf m).getD s.ocrText := by
  cases m with
  | caption_result r =>
    cases r with
    | nullish => rfl
    | object c t =>
      by_cases h : truthy c = true <;> simp [deliver, Vision.caption_result, textOf, h]
  | ocr_result r =>
    cases r with
    | nullish => rfl
    | object c t =>
      cases t with
      | none => simp [deliver, Vision.ocr_result, truthy, textOf]
      | some t =>
        by_cases h : t = "" <;> simp [deliver, Vision.ocr_result, truthy, textOf, h]

/-- The last element of `filterMap f (m :: ms)` in terms of the one of `filterMap f ms`. -/
theorem getLast?_filterMap_cons {α β : Type} (f : α → Option β) (m : α) (ms : List α)
    (d : β) :
    (((m :: ms).filterMap f).getLast?).getD d
      = ((ms.filterMap f).getLast?).getD ((f m).getD d) := by
  cases h : f m with
  | none => simp [List.filterMap_cons, h]
  | some b =>
    simp only [List.filterMap_cons, h, List.getLast?_cons, Option.getD_some]

/-- C6. After any finite sequence of `caption_result` and `ocr_result` messages the caption
slot is the caption of the last caption message with a non-empty caption (the initial
caption if there is none) and the OCR slot is the text of the last OCR message with a
non-empty text (the initial one if there is none); a caption message never changes the
OCR slot and an OCR message never changes the caption slot. -/
theorem C6_last_message_wins (s : AppState) (ms : List Inbound) :
    (deliverAll s ms).caption = lastCaption s.caption ms ∧
      (deliverAll s ms).ocrText = lastText s.ocrText ms ∧
      (∀ (t : AppState) (r : Payload),
        (deliver t (Inbound.caption_result r)).ocrText = t.ocrText) ∧
      (∀ (t : AppState) (r : Payload),
        (deliver t (Inbound.ocr_result r)).caption = t.caption) := by
  refine ⟨?_, ?_, ?_, ?_⟩
  · induction ms generalizing s with
    | nil => simp [deliverAll, lastCaption]
    | cons m ms ih =>
      have h := ih (deliver s m)
      unfold deliverAll lastCaption at h ⊢
      rw [List.foldl_cons, h, deliver_caption, getLast?_filterMap_cons]
  · induction ms generalizing s with
    | nil => simp [deliverAll, lastText]
    | cons m ms ih =>
      have h := ih (deliver s m)
      unfold deliverAll lastText at h ⊢
      rw [List.foldl_cons, h, deliver_ocrText, getLast?_filterMap_cons]
  · intro t r
    rw [deliver_ocrText]
    simp [textOf]
  · intro t r
    rw [deliver_caption]
    simp [captionOf]

/-! ## Theorems: on-demand recognition -/

/-- C5. With the video and the canvas present and the frame encoded, for `recognizeFace`
and `speech_command` alike and whatever the socket is: a 2xx response makes
`recognizedFaces` exactly the returned sequence and leaves the other slots alone; a
response with another status, or no response at all, leaves every slot as it was; in all
three cases the promise resolves. -/
theorem C5_on_demand_contract (env : Env) (s : AppState) (command : String) (status : Nat)
    (faces : List String) (hv : env.video = true) (hc : env.canvas = true) :
    ((200 ≤ status ∧ status < 300) →
      ((recognizeFace env true (PostOutcome.response status faces) s).1 = Settled.resolved ∧
        (recognizeFace env true (PostOutcome.response status faces) s).2.1
          = { s with recognizedFaces := faces }) ∧
      ((speech_command command env true (PostOutcome.response status faces) s).1
          = Settled.resolved ∧
        (speech_command command env true (PostOutcome.response status faces) s).2.1
          = { s with recognizedFaces := faces })) ∧
    (¬ (200 ≤ status ∧ status < 300) →
      ((recognizeFace env true (PostOutcome.response status faces) s).1 = Settled.resolved ∧
        (recognizeFace env true (PostOutcome.response status faces) s).2.1 = s) ∧
      ((speech_command command env true (PostOutcome.response status faces) s).1
          = Settled.resolved ∧
        (speech_command command env true (PostOutcome.response status faces) s).2.1 = s)) ∧
    (((recognizeFace env true PostOutcome.networkError s).1 = Settled.resolved ∧
        (recognizeFace env true PostOutcome.networkError s).2.1 = s) ∧
      ((speech_command command env true PostOutcome.networkError s).1 = Settled.resolved ∧
        (speech_command command env true PostOutcome.networkError s).2.1 = s)) := by
  refine ⟨fun h => ?_, fun h => ?_, ?_⟩
  · simp [recognizeFace, speech_command, request, axiosPost, hv, hc, h]
  · simp [recognizeFace, speech_command, request, axiosPost, hv, hc, h]
  · simp [recognizeFace, speech_command, request, axiosPost, hv, hc]

/-- C5 at a concrete input: no socket at all, `recognizedFaces` empty, and the service
answers 200 with Alice and Bob. -/
theorem C5_on_demand_contract_witness :
    ((recognizeFace { video := true, canvas := true, socket := none } true
          (PostOutcome.response 200 ["Alice", "Bob"]) initialState).1 = Settled.resolved ∧
      (recognizeFace { video := true, canvas := true, socket := none } true
          (PostOutcome.response 200 ["Alice", "Bob"]) initialState).2.1
        = { initialState with recognizedFaces := ["Alice", "Bob"] }) ∧
    ((speech_command "who is this" { video := true, canvas := true, socket := none } true
          (PostOutcome.response 200 ["Alice", "Bob"]) initialState).1 = Settled.resolved ∧
      (speech_command "who is this" { video := true, canvas := true, socket := none } true
          (PostOutcome.response 200 ["Alice", "Bob"]) initialState).2.1
        = { initialState with recognizedFaces := ["Alice", "Bob"] }) :=
  (C5_on_demand_contract { video := true, canvas := true, socket := none } initialState
    "who is this" 200 ["Alice", "Bob"] rfl rfl).1 (by decide)

end Vision
